import Mathlib

/-!
Verification of `cookbook/integration_anthropic_joke_example.ipynb`.

The notebook's executable content is three code cells: a package install,
a cell that imports the SDKs and calls `Traceloop.init()`, and a cell that
defines the decorated function `joke_workflow` and then calls it once at
top level.  We embed that content shallowly: the request and response
payloads become structures, the external Anthropic client becomes an
oracle from the request to either an error or a response, and observable
behaviour (the outbound API call, the `print`, the trace record emitted by
the Traceloop decorator, the Traceloop init call) becomes a list of events
produced alongside the returned value.
-/

/-- A chat message in the request payload: a role tag and a text content,
as in the dictionary literal of the notebook. -/
structure Message where
  role : String
  content : String
deriving DecidableEq

/-- The outbound request passed to `anthropic.messages.create`: the three
keyword arguments of the call in the notebook. -/
structure Request where
  max_tokens : Nat
  messages : List Message
  model : String
deriving DecidableEq

/-- The response object returned by the external call.  The notebook reads
only its `content` field; `extra` stands for every other field of the
response, whatever the external client puts there. -/
structure Response (α : Type) where
  content : String
  extra : α
deriving DecidableEq

/-- Observable events of a run of the notebook. -/
inductive Event where
  | initEvent : Event
  | definedWorkflow (funName : String) : Event
  | apiCall (req : Request) : Event
  | printed (s : String) : Event
  | traceEmitted (workflowName : String) : Event
deriving DecidableEq

/-- Recognize the outbound-request events in a trace. -/
def Event.isApiCall : Event → Bool
  | Event.apiCall _ => true
  | _ => false

/-- The lines written to standard output during a trace, in order. -/
def printedOutput (trace : List Event) : List String :=
  trace.filterMap fun e =>
    match e with
    | Event.printed s => some s
    | _ => none

/-- The request literal built inside `joke_workflow`: `max_tokens=1024`,
a single user message with the fixed prompt, and the model identifier
string, exactly as written in the notebook. -/
def jokeRequest : Request :=
  { max_tokens := 1024
  , messages := [{ role := "user", content := "Tell me a joke about OpenTelemetry" }]
  , model := "claude-3-opus-20240229" }

/-- The body of `joke_workflow` as written in the notebook: build the fixed
request, issue it once through the external client (the oracle `api`), and
on success print the response's `content` field and return the response.
A failing call propagates its error with nothing printed. -/
def joke_workflow_body {ε α : Type} (api : Request → Except ε (Response α)) :
    List Event × Except ε (Response α) :=
  match api jokeRequest with
  | Except.error e => ([Event.apiCall jokeRequest], Except.error e)
  | Except.ok response =>
      ([Event.apiCall jokeRequest, Event.printed response.content], Except.ok response)

/-- Modelled from the spec: the Traceloop `workflow` decorator is external
SDK code, absent from this repository.  Per the spec, invoking the wrapped
function executes the original function unchanged and, as a side effect
owned by the tracing SDK, emits a trace record carrying the workflow name;
the wrapper alters neither the return value nor the error. -/
def workflow {ε α : Type} (name : String)
    (f : Unit → List Event × Except ε (Response α)) :
    Unit → List Event × Except ε (Response α) :=
  fun u =>
    let r := f u
    (r.1 ++ [Event.traceEmitted name], r.2)

/-- The decorated `joke_workflow` exactly as defined in the notebook: the
body wrapped by `workflow` with the name keyword `"pirate_joke_generator"`. -/
def joke_workflow {ε α : Type} (api : Request → Except ε (Response α)) :
    List Event × Except ε (Response α) :=
  workflow "pirate_joke_generator" (fun _ => joke_workflow_body api) ()

/-- Modelled from the spec: `Traceloop.init()` is external SDK code, called
once with no configurable parameters.  Its observable effect here is the
single init event. -/
def Traceloop.init : List Event := [Event.initEvent]

/-- The notebook's top-level statement sequence, in cell order:
`Traceloop.init()`, then the (decorated) definition of `joke_workflow`,
then the top-level call `joke_workflow()` whose return value is not bound
to anything — the script keeps only the events, discarding the value. -/
def script {ε α : Type} (api : Request → Except ε (Response α)) : List Event :=
  Traceloop.init
    ++ [Event.definedWorkflow "joke_workflow"]
    ++ (joke_workflow api).1

/-- A concrete successful response used to exercise the theorems. -/
def respA : Response Nat :=
  { content := "Why did the span cross the road?", extra := 7 }

/-- A second successful response with the same content but other fields of
a different type and value. -/
def respB : Response Bool :=
  { content := "Why did the span cross the road?", extra := true }

/-- A concrete oracle for which the external call succeeds with `respA`. -/
def apiOkA : Request → Except String (Response Nat) :=
  fun _ => Except.ok respA

/-- A concrete oracle for which the external call succeeds with `respB`. -/
def apiOkB : Request → Except String (Response Bool) :=
  fun _ => Except.ok respB

/-- A concrete oracle for which the external call fails. -/
def apiErr : Request → Except String (Response Nat) :=
  fun _ => Except.error "connection refused"

/-- On a successful external call, `joke_workflow` produces exactly the
trace call-then-print-then-trace-record and returns the response. -/
theorem joke_workflow_ok {ε α : Type} (api : Request → Except ε (Response α))
    (r : Response α) (h : api jokeRequest = Except.ok r) :
    joke_workflow api =
      ([Event.apiCall jokeRequest, Event.printed r.content,
        Event.traceEmitted "pirate_joke_generator"], Except.ok r) := by
  simp [joke_workflow, workflow, joke_workflow_body, h]

/-- On a failing external call, `joke_workflow` produces exactly the trace
call-then-trace-record and propagates the error. -/
theorem joke_workflow_err {ε α : Type} (api : Request → Except ε (Response α))
    (e : ε) (h : api jokeRequest = Except.error e) :
    joke_workflow api =
      ([Event.apiCall jokeRequest, Event.traceEmitted "pirate_joke_generator"],
        Except.error e) := by
  simp [joke_workflow, workflow, joke_workflow_body, h]

example : joke_workflow apiOkA =
    ([Event.apiCall jokeRequest, Event.printed respA.content,
      Event.traceEmitted "pirate_joke_generator"], Except.ok respA) := rfl

example : (joke_workflow apiErr).2 = Except.error "connection refused" := rfl

/-- Every outbound-request event of a run of `joke_workflow` carries exactly
the fixed request literal of the notebook. -/
theorem apiCall_eq_jokeRequest {ε α : Type} (api : Request → Except ε (Response α))
    (req : Request) (h : Event.apiCall req ∈ (joke_workflow api).1) :
    req = jokeRequest := by
  rcases he : api jokeRequest with e | r
  · rw [joke_workflow_err api e he] at h
    simpa using h
  · rw [joke_workflow_ok api r he] at h
    simpa using h

/-- C1: for every invocation of `joke_workflow` (every behaviour of the
external client), the request passed to the external model call carries
`max_tokens = 1024` and the model identifier `"claude-3-opus-20240229"`,
both the unchanged source literals. -/
theorem C1_request_literals {ε α : Type} (api : Request → Except ε (Response α))
    (req : Request) (h : Event.apiCall req ∈ (joke_workflow api).1) :
    req.max_tokens = 1024 ∧ req.model = "claude-3-opus-20240229" := by
  have hr := apiCall_eq_jokeRequest api req h
  subst hr
  exact ⟨rfl, rfl⟩

/-- C1 witness: the theorem applied to a concrete successful oracle. -/
theorem C1_request_literals_witness :
    Event.apiCall jokeRequest ∈ (joke_workflow apiOkA).1
    ∧ jokeRequest.max_tokens = 1024 ∧ jokeRequest.model = "claude-3-opus-20240229" :=
  ⟨by decide, C1_request_literals apiOkA jokeRequest (by decide)⟩

/-- C2: for every invocation of `joke_workflow`, the outbound request has
the fixed shape: its messages list is exactly one element, whose role is
the string `"user"` and whose content is a string (here, the typing of
`Message.content`). -/
theorem C2_request_shape {ε α : Type} (api : Request → Except ε (Response α))
    (req : Request) (h : Event.apiCall req ∈ (joke_workflow api).1) :
    ∃ c : String, req.messages = [{ role := "user", content := c }] := by
  have hr := apiCall_eq_jokeRequest api req h
  subst hr
  exact ⟨ "Tell me a joke about OpenTelemetry", rfl⟩

/-- C2 witness: the theorem applied to a concrete successful oracle. -/
theorem C2_request_shape_witness :
    Event.apiCall jokeRequest ∈ (joke_workflow apiOkA).1
    ∧ ∃ c : String, jokeRequest.messages = [{ role := "user", content := c }] :=
  ⟨by decide, C2_request_shape apiOkA jokeRequest (by decide)⟩

/-- C3: the content of the single user message is exactly the fixed prompt
`"Tell me a joke about OpenTelemetry"`, and when the external call succeeds
the response's content field is printed and the workflow returns without
error. -/
theorem C3_fixed_prompt_and_print {ε α : Type} (api : Request → Except ε (Response α))
    (r : Response α) (h : api jokeRequest = Except.ok r) :
    (∀ req, Event.apiCall req ∈ (joke_workflow api).1 →
        req.messages = [{ role := "user", content := "Tell me a joke about OpenTelemetry" }])
    ∧ Event.printed r.content ∈ (joke_workflow api).1
    ∧ (joke_workflow api).2 = Except.ok r := by
  refine ⟨fun req hreq => ?_, ?_, ?_⟩
  · have hr := apiCall_eq_jokeRequest api req hreq
    subst hr
    rfl
  · rw [joke_workflow_ok api r h]
    simp
  · rw [joke_workflow_ok api r h]

/-- C3 witness: the theorem applied to a concrete successful oracle, its
inner hypothesis discharged at the fixed request. -/
theorem C3_fixed_prompt_and_print_witness :
    jokeRequest.messages = [{ role := "user", content := "Tell me a joke about OpenTelemetry" }]
    ∧ Event.printed respA.content ∈ (joke_workflow apiOkA).1
    ∧ (joke_workflow apiOkA).2 = Except.ok respA :=
  ⟨(C3_fixed_prompt_and_print apiOkA respA rfl).1 jokeRequest (by decide),
   (C3_fixed_prompt_and_print apiOkA respA rfl).2.1,
   (C3_fixed_prompt_and_print apiOkA respA rfl).2.2⟩

/-- C4: the workflow name string `"pirate_joke_generator"` is passed
through unchanged as the name keyword of the tracing decorator applied to
`joke_workflow`: the definition is literally the body wrapped at that name,
and the emitted trace record carries exactly that name. -/
theorem C4_workflow_name {ε α : Type} (api : Request → Except ε (Response α)) :
    joke_workflow api = workflow "pirate_joke_generator" (fun _ => joke_workflow_body api) ()
    ∧ Event.traceEmitted "pirate_joke_generator" ∈ (joke_workflow api).1 := by
  refine ⟨rfl, ?_⟩
  rcases he : api jokeRequest with e | r
  · rw [joke_workflow_err api e he]
    simp
  · rw [joke_workflow_ok api r he]
    simp

/-- C5: the decorated `joke_workflow` is observably equivalent to its
undecorated body: for every outcome of the external call it yields the same
value or error and the same printed output, the trace record being the only
extra effect. -/
theorem C5_decorator_transparent {ε α : Type} (api : Request → Except ε (Response α)) :
    (joke_workflow api).2 = (joke_workflow_body api).2
    ∧ printedOutput (joke_workflow api).1 = printedOutput (joke_workflow_body api).1 := by
  rcases he : api jokeRequest with e | r
  · rw [joke_workflow_err api e he]
    simp [joke_workflow_body, he, printedOutput]
  · rw [joke_workflow_ok api r he]
    simp [joke_workflow_body, he, printedOutput]

/-- C6: when the external call fails, the failure propagates out of
`joke_workflow` unchanged, nothing is printed, the single request is not
retried, and no response value is returned. -/
theorem C6_error_propagates {ε α : Type} (api : Request → Except ε (Response α))
    (e : ε) (h : api jokeRequest = Except.error e) :
    (joke_workflow api).2 = Except.error e
    ∧ printedOutput (joke_workflow api).1 = []
    ∧ (joke_workflow api).1.filter Event.isApiCall = [Event.apiCall jokeRequest]
    ∧ ∀ r : Response α, (joke_workflow api).2 ≠ Except.ok r := by
  rw [joke_workflow_err api e h]
  exact ⟨rfl, rfl, rfl, fun r hr => Except.noConfusion hr⟩

/-- C6 witness: the theorem applied to a concrete failing oracle. -/
theorem C6_error_propagates_witness :
    (joke_workflow apiErr).2 = Except.error "connection refused"
    ∧ printedOutput (joke_workflow apiErr).1 = []
    ∧ (joke_workflow apiErr).1.filter Event.isApiCall = [Event.apiCall jokeRequest]
    ∧ (joke_workflow apiErr).2 ≠ Except.ok respA :=
  ⟨(C6_error_propagates apiErr "connection refused" rfl).1,
   (C6_error_propagates apiErr "connection refused" rfl).2.1,
   (C6_error_propagates apiErr "connection refused" rfl).2.2.1,
   (C6_error_propagates apiErr "connection refused" rfl).2.2.2 respA⟩

/-- C7: every invocation issues exactly one model request, and on success
the trace is exactly request-then-print (followed by the decorator's trace
record) with the response returned. -/
theorem C7_one_call_then_print_then_return {ε α : Type}
    (api : Request → Except ε (Response α)) :
    ((joke_workflow api).1.filter Event.isApiCall).length = 1
    ∧ ∀ r : Response α, api jokeRequest = Except.ok r →
        (joke_workflow api).1
          = [Event.apiCall jokeRequest, Event.printed r.content,
             Event.traceEmitted "pirate_joke_generator"]
        ∧ (joke_workflow api).2 = Except.ok r := by
  constructor
  · rcases he : api jokeRequest with e | r
    · rw [joke_workflow_err api e he]
      rfl
    · rw [joke_workflow_ok api r he]
      rfl
  · intro r hr
    rw [joke_workflow_ok api r hr]
    exact ⟨rfl, rfl⟩

/-- C7 witness: the theorem applied to a concrete successful oracle. -/
theorem C7_one_call_then_print_then_return_witness :
    ((joke_workflow apiOkA).1.filter Event.isApiCall).length = 1
    ∧ (joke_workflow apiOkA).1
        = [Event.apiCall jokeRequest, Event.printed respA.content,
           Event.traceEmitted "pirate_joke_generator"]
    ∧ (joke_workflow apiOkA).2 = Except.ok respA :=
  ⟨(C7_one_call_then_print_then_return apiOkA).1,
   ((C7_one_call_then_print_then_return apiOkA).2 respA rfl).1,
   ((C7_one_call_then_print_then_return apiOkA).2 respA rfl).2⟩

/-- C8: the printed console output depends only on the response's content
field: two successful runs whose responses agree on content print the same
output, whatever the other response fields (even of different types). -/
theorem C8_output_only_content {ε₁ ε₂ α β : Type}
    (api₁ : Request → Except ε₁ (Response α)) (api₂ : Request → Except ε₂ (Response β))
    (r₁ : Response α) (r₂ : Response β)
    (h₁ : api₁ jokeRequest = Except.ok r₁) (h₂ : api₂ jokeRequest = Except.ok r₂)
    (hc : r₁.content = r₂.content) :
    printedOutput (joke_workflow api₁).1 = printedOutput (joke_workflow api₂).1 := by
  rw [joke_workflow_ok api₁ r₁ h₁, joke_workflow_ok api₂ r₂ h₂]
  simp [printedOutput, hc]

/-- C8 witness: the theorem applied to two concrete oracles whose responses
share the content but differ in every other field. -/
theorem C8_output_only_content_witness :
    printedOutput (joke_workflow apiOkA).1 = printedOutput (joke_workflow apiOkB).1 :=
  C8_output_only_content apiOkA apiOkB respA respB rfl rfl rfl

/-- C9: on success, `joke_workflow` returns the very response object the
external call produced, with every field unmodified. -/
theorem C9_response_unmodified {ε α : Type} (api : Request → Except ε (Response α))
    (r : Response α) (h : api jokeRequest = Except.ok r) :
    (joke_workflow api).2 = Except.ok r := by
  rw [joke_workflow_ok api r h]

/-- C9 witness: the theorem applied to a concrete successful oracle. -/
theorem C9_response_unmodified_witness :
    (joke_workflow apiOkB).2 = Except.ok respB :=
  C9_response_unmodified apiOkB respB rfl

/-- C10: in every run of the script, the init call comes first (before the
definition and before any model request), the workflow is invoked exactly
once with its return value discarded (the script keeps only the events),
and no prefix of the run contains a model request without the init. -/
theorem C10_init_first_single_invocation {ε α : Type}
    (api : Request → Except ε (Response α)) :
    script api
      = Traceloop.init ++ [Event.definedWorkflow "joke_workflow"] ++ (joke_workflow api).1
    ∧ (script api).head? = some Event.initEvent
    ∧ ((script api).filter Event.isApiCall).length = 1
    ∧ ((script api).filter fun e => e == Event.traceEmitted "pirate_joke_generator").length = 1
    ∧ ∀ i : Nat, (∃ req, Event.apiCall req ∈ (script api).take i) →
        Event.initEvent ∈ (script api).take i := by
  rcases he : api jokeRequest with e | r
  · have hs : script api
        = [Event.initEvent, Event.definedWorkflow "joke_workflow",
           Event.apiCall jokeRequest, Event.traceEmitted "pirate_joke_generator"] := by
      simp [script, Traceloop.init, joke_workflow_err api e he]
    refine ⟨rfl, by rw [hs]; rfl, by rw [hs]; rfl, by rw [hs]; rfl, ?_⟩
    intro i hi
    rcases hi with ⟨req, hreq⟩
    rw [hs] at hreq ⊢
    rcases i with _ | _ | _ | n
    · simp at hreq
    · simp at hreq
    · simp at hreq
    · simp
  · have hs : script api
        = [Event.initEvent, Event.definedWorkflow "joke_workflow",
           Event.apiCall jokeRequest, Event.printed r.content,
           Event.traceEmitted "pirate_joke_generator"] := by
      simp [script, Traceloop.init, joke_workflow_ok api r he]
    refine ⟨rfl, by rw [hs]; rfl, by rw [hs]; rfl, by rw [hs]; rfl, ?_⟩
    intro i hi
    rcases hi with ⟨req, hreq⟩
    rw [hs] at hreq ⊢
    rcases i with _ | _ | _ | n
    · simp at hreq
    · simp at hreq
    · simp at hreq
    · simp

/-- C10 witness: the theorem applied to a concrete successful oracle, the
prefix property exercised at the first prefix holding the request. -/
theorem C10_init_first_single_invocation_witness :
    (script apiOkA).head? = some Event.initEvent
    ∧ ((script apiOkA).filter Event.isApiCall).length = 1
    ∧ Event.initEvent ∈ (script apiOkA).take 3 :=
  ⟨(C10_init_first_single_invocation apiOkA).2.1,
   (C10_init_first_single_invocation apiOkA).2.2.1,
   (C10_init_first_single_invocation apiOkA).2.2.2.2 3 ⟨jokeRequest, by decide⟩⟩
